import Mathlib

/-!
Verification of the ACM-certificate backend's rendering and delivery pipeline.

The Python services (`certificate_service.py`, `email_service.py`) and the
bulk-generation route are embedded shallowly: the database session becomes an
explicit `DB` value threaded through every operation, the filesystem under the
media root becomes the list `DB.files` of existing relative paths, and the
external world (HTTP template fetches, the SMTP transport, the clock) becomes
an explicit `Env` record.  Python exceptions that the services catch are
represented by the corresponding outcome constructors of `Env`; functions that
swallow every exception are total Lean functions.
-/

namespace ACMCert

/-- Python `int()` applied to a rational: truncation toward zero. -/
def pyInt (q : ℚ) : ℤ := if 0 ≤ q then ⌊q⌋ else ⌈q⌉

/-- Python slicing `s[:n]` on a string: the first `n` characters (all of them
when the string is shorter). -/
def pyTruncate (s : String) (n : Nat) : String := String.mk (s.data.take n)

/-- A certificate row (`models.Certificate`), restricted to the fields the
rendering and delivery pipeline reads or writes. -/
structure Cert where
  id : String
  code : String
  recipient_name : String
  email : String
  workshop_name : String
  verification_code : String
  /-- Generation state: `"PENDING"` or `"GENERATED"`. -/
  status : String
  /-- Relative path under the media root, e.g. `certificates/ACM-2024-ABCD.png`. -/
  file_path : Option String
  /-- Delivery state: `"NOT_SENT"`, `"SENT"` or `"FAILED"`. -/
  email_status : String
  email_sent_at : Option Nat
  email_error : Option String
deriving DecidableEq, Repr

/-- A workshop row (`models.Workshop`), restricted to the fields used here. -/
structure Workshop where
  id : String
  title : String
deriving DecidableEq, Repr

/-- A template row (`models.CertificateTemplate`): two placeholder groups
(name, code) with percentage positions and reference-height font sizes. -/
structure Template where
  event_id : String
  image_url : String
  name_x : ℚ
  name_y : ℚ
  name_font_size : ℚ
  name_font_family : String
  name_alignment : String
  name_color : String
  code_x : ℚ
  code_y : ℚ
  code_font_size : ℚ
  code_font_family : String
  code_alignment : String
  code_color : String
  created_at : Nat
deriving DecidableEq, Repr

/-- One observable `draw.text` call issued while rendering. -/
structure DrawOp where
  x : ℚ
  y : ℚ
  text : String
  fontSize : ℤ
  color : String
  anchor : String
deriving DecidableEq, Repr, Inhabited

/-- The persistent store plus the observable effects of the pipeline:
`files` is the set of relative paths existing under the media root,
`fetchCount` counts template-image HTTP fetch attempts, and `drawn` records
every text-drawing call. -/
structure DB where
  certs : List Cert
  workshops : List Workshop
  templates : List Template
  files : List String
  fetchCount : Nat
  drawn : List DrawOp
deriving DecidableEq, Repr

/-- Outcome of fetching and decoding a template image: decoded pixel
dimensions, an HTTP error (`raise_for_status`), or an undecodable body. -/
inductive FetchResult where
  | ok (width height : Nat)
  | httpError
  | decodeError
deriving DecidableEq, Repr

/-- Outcome of composing and submitting one email, mirroring the `except`
arms of `send_certificate_email`. -/
inductive SendOutcome where
  | ok
  | authError (msg : String)
  | smtpError (msg : String)
  | fileNotFound (msg : String)
  | otherError (msg : String)
deriving DecidableEq, Repr

/-- The external world: the image fetch result per URL, whether writing the
output PNG fails, whether SMTP settings are configured
(`_is_email_configured`), the transport outcome per certificate id, and the
current time. -/
structure Env where
  fetch : String → FetchResult
  writeFails : Bool
  emailConfigured : Bool
  sendOutcome : String → SendOutcome
  now : Nat

/-- `db.query(Certificate).filter(Certificate.id == cid).first()`. -/
def findCert (db : DB) (cid : String) : Option Cert :=
  db.certs.find? (fun c => c.id == cid)

/-- `db.query(Workshop).filter(Workshop.id == wid).first()`. -/
def findWorkshopById (db : DB) (wid : String) : Option Workshop :=
  db.workshops.find? (fun w => w.id == wid)

/-- `db.query(Workshop).filter(Workshop.title == title).first()`. -/
def findWorkshopByTitle (db : DB) (title : String) : Option Workshop :=
  db.workshops.find? (fun w => w.title == title)

/-- Newest template for a workshop:
`filter(event_id == wid).order_by(created_at.desc()).first()`. -/
def newestTemplate (db : DB) (wid : String) : Option Template :=
  (db.templates.filter (fun t => t.event_id == wid)).foldl
    (fun acc t =>
      match acc with
      | none => some t
      | some b => if b.created_at < t.created_at then some t else some b)
    none

/-- Mutate the certificate with the given id in place and commit. -/
def updateCert (db : DB) (cid : String) (f : Cert → Cert) : DB :=
  { db with certs := db.certs.map (fun c => if c.id == cid then f c else c) }

/-- `_mark_failed` on the record itself: set `email_status = "FAILED"` and
store the message truncated to 2000 characters (`error_msg[:2000]`). -/
def markFailedCert (cert : Cert) (error_msg : String) : Cert :=
  { cert with email_status := "FAILED", email_error := some (pyTruncate error_msg 2000) }

/-- `_mark_failed(db, cert, error_msg)`. -/
def mark_failed (db : DB) (cert : Cert) (error_msg : String) : DB :=
  updateCert db cert.id (fun c => markFailedCert c error_msg)

/-- `send_certificate_email(db, certificate_id, force)`: guards in source
order, then the `try` block with every exception arm caught.  The pair is
(returned boolean, database after the call). -/
def send_certificate_email (env : Env) (db : DB) (certificate_id : String)
    (force : Bool) : Bool × DB :=
  match findCert db certificate_id with
  | none => (false, db)
  | some cert =>
    let path := cert.file_path.getD ""
    if cert.status ≠ "GENERATED" then (false, db)
    else if path = "" then (false, db)
    else if path ∉ db.files then
      (false, mark_failed db cert ("File not found: " ++ path))
    else if cert.email_status = "SENT" ∧ force = false then (true, db)
    else if env.emailConfigured = false then
      (false, mark_failed db cert
        "SMTP not configured (EMAIL_HOST / EMAIL_USERNAME / EMAIL_PASSWORD missing)")
    else
      match env.sendOutcome cert.id with
      | .ok =>
        (true, updateCert db cert.id (fun c =>
          { c with email_status := "SENT", email_sent_at := some env.now,
                   email_error := none }))
      | .authError m => (false, mark_failed db cert ("SMTP authentication failed: " ++ m))
      | .smtpError m => (false, mark_failed db cert ("SMTP error: " ++ m))
      | .fileNotFound m => (false, mark_failed db cert ("File not found: " ++ m))
      | .otherError m => (false, mark_failed db cert ("Unexpected error: " ++ m))

/-- Counters returned by `send_bulk_certificate_emails`. -/
structure SendCounts where
  total : Nat
  sent : Nat
  skipped : Nat
  failed : Nat
deriving DecidableEq, Repr

/-- The candidate query of `send_bulk_certificate_emails`: certificates of the
workshop with generation state GENERATED, excluding already-SENT ones unless
`force`, capped at `MAX_BATCH_SIZE = 1000`. -/
def eligibleCerts (db : DB) (workshop : Workshop) (force : Bool) : List Cert :=
  (db.certs.filter (fun c =>
    c.workshop_name == workshop.title && c.status == "GENERATED" &&
      (force || c.email_status != "SENT"))).take 1000

/-- One iteration of the bulk-email loop: the in-loop SENT re-check, the
per-certificate send, and the refresh-then-classify of a non-success.  The
certificate is re-read from the current session state by id, as the ORM
identity map does. -/
def sendStep (env : Env) (force : Bool) (acc : SendCounts × DB) (c0 : Cert) :
    SendCounts × DB :=
  let counts := acc.1
  let db := acc.2
  let cert := (findCert db c0.id).getD c0
  if cert.email_status = "SENT" ∧ force = false then
    ({ counts with skipped := counts.skipped + 1 }, db)
  else
    match send_certificate_email env db cert.id force with
    | (true, db2) => ({ counts with sent := counts.sent + 1 }, db2)
    | (false, db2) =>
      let cur := (findCert db2 cert.id).getD cert
      if cur.email_status = "SENT" then
        ({ counts with skipped := counts.skipped + 1 }, db2)
      else
        ({ counts with failed := counts.failed + 1 }, db2)

/-- `send_bulk_certificate_emails(db, workshop_id, force)`. -/
def send_bulk_certificate_emails (env : Env) (db : DB) (workshop_id : String)
    (force : Bool) : SendCounts × DB :=
  match findWorkshopById db workshop_id with
  | none => ({ total := 0, sent := 0, skipped := 0, failed := 0 }, db)
  | some workshop =>
    let certs := eligibleCerts db workshop force
    certs.foldl (sendStep env force)
      ({ total := certs.length, sent := 0, skipped := 0, failed := 0 }, db)

/-- Pixel coordinate from a percentage position: `(pct / 100) * dim`. -/
def pixelCoord (pct : ℚ) (dim : Nat) : ℚ := pct / 100 * dim

/-- Absolute font size drawn by `_render_certificate`:
`max(1, int(specSize * scale_factor))` with `scale_factor = h / 500`. -/
def absFontSize (specSize : ℚ) (h : Nat) : ℤ :=
  max 1 (pyInt (specSize * ((h : ℚ) / 500)))

/-- `_alignment_anchor`: Pillow anchor string for an alignment. -/
def alignment_anchor (alignment : String) : String :=
  if alignment = "left" then "lm"
  else if alignment = "center" then "mm"
  else if alignment = "right" then "rm"
  else "mm"

/-- The relative output path `certificates/<code>.png`. -/
def relPathFor (cert : Cert) : String := "certificates/" ++ cert.code ++ ".png"

/-- The `draw.text` call for the name placeholder on a `w × h` image. -/
def nameDrawOp (cert : Cert) (tpl : Template) (w h : Nat) : DrawOp :=
  { x := pixelCoord tpl.name_x w
    y := pixelCoord tpl.name_y h
    text := cert.recipient_name
    fontSize := absFontSize tpl.name_font_size h
    color := tpl.name_color
    anchor := alignment_anchor tpl.name_alignment }

/-- The `draw.text` call for the code placeholder on a `w × h` image. -/
def codeDrawOp (cert : Cert) (tpl : Template) (w h : Nat) : DrawOp :=
  { x := pixelCoord tpl.code_x w
    y := pixelCoord tpl.code_y h
    text := cert.code
    fontSize := absFontSize tpl.code_font_size h
    color := tpl.code_color
    anchor := alignment_anchor tpl.code_alignment }

/-- `_render_certificate(db, cert, tpl)`: fetch the template image, draw the
two labels, write the PNG and update the record.  The `Except` error carries
the exception that `generate_single_certificate` catches; the fetch attempt is
counted even when it fails. -/
def render_certificate (env : Env) (db : DB) (cert : Cert) (tpl : Template) :
    Except String String × DB :=
  match env.fetch tpl.image_url with
  | .httpError => (.error "HTTP error fetching template image",
      { db with fetchCount := db.fetchCount + 1 })
  | .decodeError => (.error "cannot decode template image",
      { db with fetchCount := db.fetchCount + 1 })
  | .ok w h =>
    let db1 := { db with
      fetchCount := db.fetchCount + 1,
      drawn := db.drawn ++ [nameDrawOp cert tpl w h, codeDrawOp cert tpl w h] }
    if env.writeFails then (.error "cannot write output PNG", db1)
    else
      let rel := relPathFor cert
      let db2 := { db1 with files := db1.files.insert rel }
      (.ok rel, updateCert db2 cert.id (fun c =>
        { c with file_path := some rel, status := "GENERATED" }))

/-- The already-generated test of `generate_single_certificate` and of the
bulk loop: generation state GENERATED, a truthy `file_path`, and the file
present under the media root.  `cert.file_path.getD "" ≠ ""` is Python's
truthiness of the optional string. -/
def alreadyGenerated (db : DB) (cert : Cert) : Prop :=
  cert.status = "GENERATED" ∧ cert.file_path.getD "" ≠ "" ∧
    cert.file_path.getD "" ∈ db.files

instance (db : DB) (cert : Cert) : Decidable (alreadyGenerated db cert) := by
  unfold alreadyGenerated; infer_instance

/-- `generate_single_certificate(db, certificate_id)`: look up the record,
skip when already generated with the file present, otherwise resolve the
workshop by title and its newest template and render; any render exception is
caught and turned into `none`. -/
def generate_single_certificate (env : Env) (db : DB) (certificate_id : String) :
    Option String × DB :=
  match findCert db certificate_id with
  | none => (none, db)
  | some cert =>
    if alreadyGenerated db cert then (cert.file_path, db)
    else
      match findWorkshopByTitle db cert.workshop_name with
      | none => (none, db)
      | some workshop =>
        match newestTemplate db workshop.id with
        | none => (none, db)
        | some template =>
          match render_certificate env db cert template with
          | (.ok rel, db2) => (some rel, db2)
          | (.error _, db2) => (none, db2)

/-- Counters returned by `generate_certificates_for_workshop`. -/
structure GenCounts where
  total : Nat
  generated : Nat
  skipped : Nat
  failed : Nat
deriving DecidableEq, Repr

/-- One iteration of the bulk-generation loop: re-check the already-generated
condition on the current record state, otherwise generate and classify.  The
certificate is re-read from the session by id, as the ORM identity map does. -/
def genStep (env : Env) (acc : GenCounts × DB) (c0 : Cert) : GenCounts × DB :=
  let counts := acc.1
  let db := acc.2
  let cert := (findCert db c0.id).getD c0
  if alreadyGenerated db cert then
    ({ counts with skipped := counts.skipped + 1 }, db)
  else
    match generate_single_certificate env db cert.id with
    | (some _, db2) => ({ counts with generated := counts.generated + 1 }, db2)
    | (none, db2) => ({ counts with failed := counts.failed + 1 }, db2)

/-- `generate_certificates_for_workshop(db, workshop_id)`. -/
def generate_certificates_for_workshop (env : Env) (db : DB) (workshop_id : String) :
    GenCounts × DB :=
  match findWorkshopById db workshop_id with
  | none => ({ total := 0, generated := 0, skipped := 0, failed := 0 }, db)
  | some workshop =>
    let certs := db.certs.filter (fun c => c.workshop_name == workshop.title)
    certs.foldl (genStep env)
      ({ total := certs.length, generated := 0, skipped := 0, failed := 0 }, db)

/-- The bulk-generation HTTP operation
(`POST /admin/generate-workshop/{workshop_id}`): it performs no workshop
existence check and passes the service's counters through unchanged. -/
def bulk_generate_certificates (env : Env) (db : DB) (workshop_id : String) :
    GenCounts × DB :=
  generate_certificates_for_workshop env db workshop_id

/-! Concrete fixtures used to instantiate the theorems below on closed
inputs. -/

/-- A generated certificate whose PNG exists and whose email was sent. -/
def certSent : Cert :=
  { id := "c-sent", code := "ACM-2024-SENT1", recipient_name := "Ada Lovelace",
    email := "ada@example.org", workshop_name := "React Basics",
    verification_code := "v-sent", status := "GENERATED",
    file_path := some "certificates/ACM-2024-SENT1.png", email_status := "SENT",
    email_sent_at := some 11, email_error := none }

/-- A generated certificate whose PNG exists, email not yet sent. -/
def certFresh : Cert :=
  { id := "c-fresh", code := "ACM-2024-AB12", recipient_name := "Grace Hopper",
    email := "grace@example.org", workshop_name := "React Basics",
    verification_code := "v-fresh", status := "GENERATED",
    file_path := some "certificates/ACM-2024-AB12.png", email_status := "NOT_SENT",
    email_sent_at := none, email_error := none }

/-- A generated certificate with no file path at all. -/
def certNoPath : Cert :=
  { id := "c-nopath", code := "ACM-2024-NOPATH", recipient_name := "Alan Turing",
    email := "alan@example.org", workshop_name := "React Basics",
    verification_code := "v-nopath", status := "GENERATED",
    file_path := none, email_status := "NOT_SENT",
    email_sent_at := none, email_error := none }

/-- A generated certificate whose recorded file vanished from storage. -/
def certGone : Cert :=
  { id := "c-gone", code := "ACM-2024-GONE1", recipient_name := "Edsger Dijkstra",
    email := "edsger@example.org", workshop_name := "React Basics",
    verification_code := "v-gone", status := "GENERATED",
    file_path := some "certificates/ACM-2024-GONE1.png", email_status := "NOT_SENT",
    email_sent_at := none, email_error := none }

/-- A pending certificate that has never been rendered. -/
def certPending : Cert :=
  { id := "c-pend", code := "ACM-2024-AB12", recipient_name := "Annie Easley",
    email := "annie@example.org", workshop_name := "React Basics",
    verification_code := "v-pend", status := "PENDING",
    file_path := none, email_status := "NOT_SENT",
    email_sent_at := none, email_error := none }

/-- The workshop the fixture certificates belong to, by title. -/
def wsReact : Workshop := { id := "w1", title := "React Basics" }

/-- The spec's scenario template: name at (50,45) size 24 centered, code at
(50,70) size 16 centered. -/
def tplReact : Template :=
  { event_id := "w1", image_url := "https://cdn.example.org/tpl.png",
    name_x := 50, name_y := 45, name_font_size := 24, name_font_family := "Arial",
    name_alignment := "center", name_color := "#1a1a2e",
    code_x := 50, code_y := 70, code_font_size := 16,
    code_font_family := "Courier New", code_alignment := "center",
    code_color := "#333333", created_at := 3 }

/-- A benign environment: fetches decode to a 1584×990 image, writes succeed,
SMTP is configured and every submission is accepted. -/
def envOk : Env :=
  { fetch := fun _ => .ok 1584 990, writeFails := false, emailConfigured := true,
    sendOutcome := fun _ => .ok, now := 42 }

/-- An environment whose SMTP login is rejected. -/
def envAuthFail : Env :=
  { fetch := fun _ => .ok 1584 990, writeFails := false, emailConfigured := true,
    sendOutcome := fun _ => .authError "Invalid credentials", now := 42 }

/-- Store with one already-sent certificate in the workshop. -/
def dbSent : DB :=
  { certs := [certSent], workshops := [wsReact], templates := [],
    files := ["certificates/ACM-2024-SENT1.png"], fetchCount := 0, drawn := [] }

/-- Store with one fresh (generated, unsent) certificate in the workshop. -/
def dbFresh : DB :=
  { certs := [certFresh], workshops := [wsReact], templates := [],
    files := ["certificates/ACM-2024-AB12.png"], fetchCount := 0, drawn := [] }

/-- Store with one generated certificate lacking a file path. -/
def dbNoPath : DB :=
  { certs := [certNoPath], workshops := [wsReact], templates := [],
    files := [], fetchCount := 0, drawn := [] }

/-- Store with one generated certificate whose file vanished. -/
def dbGone : DB :=
  { certs := [certGone], workshops := [wsReact], templates := [],
    files := [], fetchCount := 0, drawn := [] }

/-- Store with one pending certificate and the scenario template. -/
def dbPending : DB :=
  { certs := [certPending], workshops := [wsReact], templates := [tplReact],
    files := [], fetchCount := 0, drawn := [] }

/-! General helper lemmas about the embedding, shared by several claims. -/

/-- `List.find?` keyed on the id commutes with an id-preserving update of the
entry with that id. -/
theorem find?_update_eq (l : List Cert) (cid : String) (f : Cert → Cert)
    (hf : ∀ c, (f c).id = c.id) :
    (l.map (fun c => if c.id == cid then f c else c)).find? (fun c => c.id == cid) =
      (l.find? (fun c => c.id == cid)).map f := by
  induction l with
  | nil => rfl
  | cons a t ih =>
    simp only [List.map_cons]
    cases h : a.id == cid with
    | true => simp [List.find?, hf a, h]
    | false =>
      simp only [Bool.false_eq_true, if_false, List.find?, h]
      exact ih

/-- After `_mark_failed`, looking the certificate up again returns the record
with the failure fields set. -/
theorem findCert_mark_failed (db : DB) (cert : Cert) (m : String) (cid : String)
    (hid : cert.id = cid) (hc : findCert db cid = some cert) :
    findCert (mark_failed db cert m) cid = some (markFailedCert cert m) := by
  subst hid
  unfold findCert at hc
  unfold findCert mark_failed updateCert
  dsimp only
  rw [find?_update_eq db.certs cert.id (fun c => markFailedCert c m) (fun c => rfl), hc]
  rfl

/-- A certificate found by id carries that id. -/
theorem findCert_id (db : DB) (cid : String) (cert : Cert)
    (hc : findCert db cid = some cert) : cert.id = cid := by
  have := List.find?_some hc
  simpa using this

/-- Each bulk-generation iteration adds exactly one to exactly one of the
three outcome counters and never touches `total`. -/
theorem genStep_counts (env : Env) (acc : GenCounts × DB) (c : Cert) :
    ((genStep env acc c).1.generated + (genStep env acc c).1.skipped +
        (genStep env acc c).1.failed =
      acc.1.generated + acc.1.skipped + acc.1.failed + 1) ∧
    (genStep env acc c).1.total = acc.1.total := by
  unfold genStep
  dsimp only
  split
  · exact ⟨by dsimp only; omega, rfl⟩
  · split
    · exact ⟨by dsimp only; omega, rfl⟩
    · exact ⟨by dsimp only; omega, rfl⟩

/-- Folding the bulk-generation step over a list adds its length to the
outcome counters and preserves `total`. -/
theorem genFold_counts (env : Env) (l : List Cert) (acc : GenCounts × DB) :
    ((l.foldl (genStep env) acc).1.generated + (l.foldl (genStep env) acc).1.skipped +
        (l.foldl (genStep env) acc).1.failed =
      acc.1.generated + acc.1.skipped + acc.1.failed + l.length) ∧
    (l.foldl (genStep env) acc).1.total = acc.1.total := by
  induction l generalizing acc with
  | nil => simp
  | cons c t ih =>
    simp only [List.foldl_cons, List.length_cons]
    obtain ⟨ha, hb⟩ := genStep_counts env acc c
    obtain ⟨hc, hd⟩ := ih (genStep env acc c)
    exact ⟨by omega, by omega⟩

/-- Each bulk-email iteration adds exactly one to exactly one of the three
outcome counters and never touches `total`. -/
theorem sendStep_counts (env : Env) (force : Bool) (acc : SendCounts × DB) (c : Cert) :
    ((sendStep env force acc c).1.sent + (sendStep env force acc c).1.skipped +
        (sendStep env force acc c).1.failed =
      acc.1.sent + acc.1.skipped + acc.1.failed + 1) ∧
    (sendStep env force acc c).1.total = acc.1.total := by
  unfold sendStep
  dsimp only
  split
  · exact ⟨by dsimp only; omega, rfl⟩
  · split
    · exact ⟨by dsimp only; omega, rfl⟩
    · split
      · exact ⟨by dsimp only; omega, rfl⟩
      · exact ⟨by dsimp only; omega, rfl⟩

/-- Folding the bulk-email step over a list adds its length to the outcome
counters and preserves `total`. -/
theorem sendFold_counts (env : Env) (force : Bool) (l : List Cert)
    (acc : SendCounts × DB) :
    ((l.foldl (sendStep env force) acc).1.sent +
        (l.foldl (sendStep env force) acc).1.skipped +
        (l.foldl (sendStep env force) acc).1.failed =
      acc.1.sent + acc.1.skipped + acc.1.failed + l.length) ∧
    (l.foldl (sendStep env force) acc).1.total = acc.1.total := by
  induction l generalizing acc with
  | nil => simp
  | cons c t ih =>
    simp only [List.foldl_cons, List.length_cons]
    obtain ⟨ha, hb⟩ := sendStep_counts env force acc c
    obtain ⟨hc, hd⟩ := ih (sendStep env force acc c)
    exact ⟨by omega, by omega⟩

/-- Claim C1, counterexample.  The claim says every certificate whose delivery
state was SENT before the call is counted in the `skipped` bucket when
`force = false`.  In `dbSent` the workshop holds exactly one certificate; it
is GENERATED and already SENT, yet `send_bulk_certificate_emails` returns
`skipped = 0` (and `total = 0`): the query excludes already-SENT certificates
from the candidate set, so they are counted in no bucket at all. -/
theorem bulk_email_sent_not_skipped_cex :
    certSent ∈ dbSent.certs ∧ certSent.workshop_name = wsReact.title ∧
    certSent.status = "GENERATED" ∧ certSent.email_status = "SENT" ∧
    findWorkshopById dbSent "w1" = some wsReact ∧
    (send_bulk_certificate_emails envOk dbSent "w1" false).1.skipped = 0 ∧
    (send_bulk_certificate_emails envOk dbSent "w1" false).1.total = 0 := by
  decide

/-- Claim C1, amended.  After `send_bulk_certificate_emails`,
`sent + skipped + failed = total` where `total` is the number of candidates
examined; and when `force = false` every certificate whose delivery state is
already SENT is excluded from the candidate set (so it is counted in no
bucket, rather than in `skipped` as the original claim stated). -/
theorem bulk_email_invariant (env : Env) (db : DB) (workshop_id : String) (force : Bool) :
    ((send_bulk_certificate_emails env db workshop_id force).1.sent +
        (send_bulk_certificate_emails env db workshop_id force).1.skipped +
        (send_bulk_certificate_emails env db workshop_id force).1.failed =
      (send_bulk_certificate_emails env db workshop_id force).1.total) ∧
    (∀ w, findWorkshopById db workshop_id = some w →
      (send_bulk_certificate_emails env db workshop_id force).1.total =
        (eligibleCerts db w force).length) ∧
    (∀ w, findWorkshopById db workshop_id = some w →
      ∀ c ∈ eligibleCerts db w false, c.email_status ≠ "SENT") := by
  refine ⟨?_, ?_, ?_⟩
  · unfold send_bulk_certificate_emails
    cases hw : findWorkshopById db workshop_id with
    | none => rfl
    | some w =>
      dsimp only
      obtain ⟨h1, h2⟩ := sendFold_counts env force (eligibleCerts db w force)
        ({ total := (eligibleCerts db w force).length,
           sent := 0, skipped := 0, failed := 0 }, db)
      dsimp only at h1 h2
      omega
  · intro w hw
    unfold send_bulk_certificate_emails
    rw [hw]
    dsimp only
    obtain ⟨h1, h2⟩ := sendFold_counts env force (eligibleCerts db w force)
      ({ total := (eligibleCerts db w force).length,
         sent := 0, skipped := 0, failed := 0 }, db)
    dsimp only at h2
    exact h2
  · intro w _ c hc
    unfold eligibleCerts at hc
    have hmem := List.take_subset 1000 _ hc
    obtain ⟨-, hp⟩ := List.mem_filter.mp hmem
    simp only [Bool.false_or, Bool.and_eq_true, bne_iff_ne, ne_eq] at hp
    exact hp.2

/-- Claim C1, witness: the amended invariant instantiated on a store with one
fresh certificate. -/
theorem bulk_email_invariant_witness :
    ((send_bulk_certificate_emails envOk dbFresh "w1" false).1.sent +
        (send_bulk_certificate_emails envOk dbFresh "w1" false).1.skipped +
        (send_bulk_certificate_emails envOk dbFresh "w1" false).1.failed =
      (send_bulk_certificate_emails envOk dbFresh "w1" false).1.total) ∧
    (send_bulk_certificate_emails envOk dbFresh "w1" false).1.total =
      (eligibleCerts dbFresh wsReact false).length ∧
    certFresh.email_status ≠ "SENT" :=
  ⟨(bulk_email_invariant envOk dbFresh "w1" false).1,
   (bulk_email_invariant envOk dbFresh "w1" false).2.1 wsReact rfl,
   (bulk_email_invariant envOk dbFresh "w1" false).2.2 wsReact rfl certFresh (by decide)⟩

/-- Claim C2.  `send_certificate_email` is a total function of the store and
the environment (no exception escapes: every transport outcome, including
authentication failures and unexpected errors, is an explicit case).  It
returns `true` exactly when all guards pass and either the call is a no-op
skip (delivery already SENT with `force = false`) or the transport confirmed
the send; and whenever the guards pass but the send is not a skip and not a
confirmed success, the record is stored with delivery FAILED and an error
message, and the call returns `false`. -/
theorem send_one_result_spec (env : Env) (db : DB) (cid : String) (force : Bool) :
    ((send_certificate_email env db cid force).1 = true ↔
      ∃ cert, findCert db cid = some cert ∧ cert.status = "GENERATED" ∧
        cert.file_path.getD "" ≠ "" ∧ cert.file_path.getD "" ∈ db.files ∧
        ((cert.email_status = "SENT" ∧ force = false) ∨
          (env.emailConfigured = true ∧ env.sendOutcome cert.id = .ok))) ∧
    (∀ cert, findCert db cid = some cert → cert.status = "GENERATED" →
      cert.file_path.getD "" ≠ "" → cert.file_path.getD "" ∈ db.files →
      ¬(cert.email_status = "SENT" ∧ force = false) →
      ¬(env.emailConfigured = true ∧ env.sendOutcome cert.id = .ok) →
      ∃ m, (send_certificate_email env db cid force).1 = false ∧
        findCert (send_certificate_email env db cid force).2 cid =
          some (markFailedCert cert m)) := by
  cases hc : findCert db cid with
  | none =>
    constructor
    · unfold send_certificate_email
      rw [hc]
      simp [hc]
    · exact fun cert hcert => absurd hcert (by simp)
  | some cert =>
    have hid : cert.id = cid := findCert_id db cid cert hc
    constructor
    · unfold send_certificate_email
      rw [hc]
      dsimp only
      by_cases h1 : cert.status = "GENERATED"
      · by_cases h2 : cert.file_path.getD "" = ""
        · simp [h1, h2, hc]
        · by_cases h3 : cert.file_path.getD "" ∈ db.files
          · by_cases h4 : cert.email_status = "SENT" ∧ force = false
            · simp [h1, h2, h3, h4, hc]
            · by_cases h5 : env.emailConfigured = true
              · cases ho : env.sendOutcome cert.id <;>
                  simp [h1, h2, h3, h4, h5, ho, hc]
              · have h5' : env.emailConfigured = false := by
                  cases hb : env.emailConfigured
                  · rfl
                  · exact absurd hb h5
                simp [h1, h2, h3, h4, h5', hc]
          · simp [h1, h2, h3, hc]
      · simp [h1, hc]
    · intro cert' hcert' g1 g2 g3 g4 g5
      injection hcert' with he
      subst he
      unfold send_certificate_email
      rw [hc]
      dsimp only
      rw [if_neg (by simp [g1]), if_neg g2, if_neg (by simpa using g3), if_neg g4]
      by_cases h5 : env.emailConfigured = true
      · rw [if_neg (by simp [h5])]
        cases ho : env.sendOutcome cert.id with
        | ok => exact absurd ⟨h5, ho⟩ g5
        | authError m =>
          exact ⟨"SMTP authentication failed: " ++ m, rfl,
            findCert_mark_failed db cert _ cid hid hc⟩
        | smtpError m =>
          exact ⟨"SMTP error: " ++ m, rfl,
            findCert_mark_failed db cert _ cid hid hc⟩
        | fileNotFound m =>
          exact ⟨"File not found: " ++ m, rfl,
            findCert_mark_failed db cert _ cid hid hc⟩
        | otherError m =>
          exact ⟨"Unexpected error: " ++ m, rfl,
            findCert_mark_failed db cert _ cid hid hc⟩
      · have h5' : env.emailConfigured = false := by
          cases hb : env.emailConfigured
          · rfl
          · exact absurd hb h5
        rw [if_pos h5']
        exact ⟨"SMTP not configured (EMAIL_HOST / EMAIL_USERNAME / EMAIL_PASSWORD missing)",
          rfl, findCert_mark_failed db cert _ cid hid hc⟩

/-- Claim C2, witness: an SMTP authentication failure yields `false` and a
stored FAILED delivery state, without any exception escaping. -/
theorem send_one_result_spec_witness :
    (send_certificate_email envAuthFail dbFresh "c-fresh" false).1 = false ∧
    (findCert (send_certificate_email envAuthFail dbFresh "c-fresh" false).2
        "c-fresh").map Cert.email_status = some "FAILED" := by
  obtain ⟨m, hm1, hm2⟩ :=
    (send_one_result_spec envAuthFail dbFresh "c-fresh" false).2 certFresh rfl rfl
      (by decide) (by decide) (by decide) (by decide)
  refine ⟨hm1, ?_⟩
  rw [hm2]
  rfl

/-- Claim C3.  When the certificate's generation state is already GENERATED
and its file path names an existing file, `generate_single_certificate`
returns the stored path and leaves the store — including the fetch counter —
completely unchanged, and a second consecutive render returns the same. -/
theorem render_idempotent (env : Env) (db : DB) (cid : String) (cert : Cert) (p : String)
    (h1 : findCert db cid = some cert) (h2 : cert.status = "GENERATED")
    (h3 : cert.file_path = some p) (h4 : p ≠ "") (h5 : p ∈ db.files) :
    generate_single_certificate env db cid = (some p, db) ∧
    (generate_single_certificate env db cid).2.fetchCount = db.fetchCount ∧
    generate_single_certificate env (generate_single_certificate env db cid).2 cid
      = (some p, db) := by
  have hag : alreadyGenerated db cert := by
    refine ⟨h2, ?_, ?_⟩ <;> rw [h3]
    · simpa using h4
    · simpa using h5
  have hmain : generate_single_certificate env db cid = (some p, db) := by
    unfold generate_single_certificate
    rw [h1]
    dsimp only
    rw [if_pos hag, h3]
  refine ⟨hmain, by rw [hmain], ?_⟩
  rw [hmain]
  exact hmain

/-- Claim C3, witness: the idempotent skip on a generated certificate whose
file exists. -/
theorem render_idempotent_witness :
    generate_single_certificate envOk dbFresh "c-fresh" =
      (some "certificates/ACM-2024-AB12.png", dbFresh) :=
  (render_idempotent envOk dbFresh "c-fresh" certFresh "certificates/ACM-2024-AB12.png"
    (by decide) rfl rfl (by decide) (by decide)).1

/-- Claim C4.  After `generate_certificates_for_workshop`, the counters
satisfy `generated + skipped + failed = total` (each certificate is
classified into exactly one bucket and no failure aborts the loop), and
`total` is the number of certificates whose `workshop_name` equals the
workshop's title (zero when the workshop does not exist). -/
theorem bulk_generation_invariant (env : Env) (db : DB) (workshop_id : String) :
    ((generate_certificates_for_workshop env db workshop_id).1.generated +
        (generate_certificates_for_workshop env db workshop_id).1.skipped +
        (generate_certificates_for_workshop env db workshop_id).1.failed =
      (generate_certificates_for_workshop env db workshop_id).1.total) ∧
    (generate_certificates_for_workshop env db workshop_id).1.total =
      (match findWorkshopById db workshop_id with
       | none => 0
       | some w => (db.certs.filter (fun c => c.workshop_name == w.title)).length) := by
  unfold generate_certificates_for_workshop
  cases hw : findWorkshopById db workshop_id with
  | none => exact ⟨rfl, rfl⟩
  | some w =>
    dsimp only
    obtain ⟨h1, h2⟩ := genFold_counts env
      (db.certs.filter (fun c => c.workshop_name == w.title))
      ({ total := (db.certs.filter (fun c => c.workshop_name == w.title)).length,
         generated := 0, skipped := 0, failed := 0 }, db)
    dsimp only at h1 h2
    constructor
    · omega
    · exact h2

/-- Claim C5, counterexample.  The claim says the absolute font size drawn
equals `max(1, round(spec.fontSize * imageHeight / 500))`.  For the scenario
template (name font size 24) on a 990-pixel-high image, the code draws at
`max(1, int(24 * 990/500)) = 47`, while the claimed rounding formula gives
`round(47.52) = 48`: Python `int()` truncates, it does not round. -/
theorem font_size_round_cex :
    ((render_certificate envOk dbPending certPending tplReact).2.drawn.headD
        default).fontSize ≠
      max 1 (round (tplReact.name_font_size * ((990 : ℚ) / 500))) := by
  have hdrawn : (render_certificate envOk dbPending certPending tplReact).2.drawn =
      [nameDrawOp certPending tplReact 1584 990,
       codeDrawOp certPending tplReact 1584 990] := by
    rfl
  rw [hdrawn]
  show absFontSize tplReact.name_font_size 990 ≠ _
  unfold absFontSize pyInt tplReact
  norm_num [round_eq]

/-- Claim C5, amended.  The absolute font size used when drawing equals
`max(1, trunc(spec.fontSize * imageHeight / 500))`, where `trunc` is Python
`int()` truncation toward zero (not rounding); the spec's example still
holds: image height 1000 with font size 24 gives 48. -/
theorem font_size_truncation (env : Env) (db : DB) (cert : Cert) (tpl : Template)
    (w h : Nat) (hf : env.fetch tpl.image_url = .ok w h) :
    (render_certificate env db cert tpl).2.drawn =
      db.drawn ++ [nameDrawOp cert tpl w h, codeDrawOp cert tpl w h] ∧
    (nameDrawOp cert tpl w h).fontSize =
      max 1 (pyInt (tpl.name_font_size * ((h : ℚ) / 500))) ∧
    (codeDrawOp cert tpl w h).fontSize =
      max 1 (pyInt (tpl.code_font_size * ((h : ℚ) / 500))) ∧
    absFontSize 24 1000 = 48 := by
  refine ⟨?_, rfl, rfl, ?_⟩
  · unfold render_certificate
    rw [hf]
    dsimp only
    by_cases hw : env.writeFails = true <;> simp [hw, updateCert]
  · unfold absFontSize pyInt
    norm_num

/-- Claim C5, witness: the truncation theorem instantiated on the scenario
render. -/
theorem font_size_truncation_witness :
    (render_certificate envOk dbPending certPending tplReact).2.drawn =
      dbPending.drawn ++ [nameDrawOp certPending tplReact 1584 990,
        codeDrawOp certPending tplReact 1584 990] ∧
    absFontSize 24 1000 = 48 :=
  ⟨(font_size_truncation envOk dbPending certPending tplReact 1584 990 rfl).1,
   (font_size_truncation envOk dbPending certPending tplReact 1584 990 rfl).2.2.2⟩

/-- Claim C6, counterexample.  The claim says a GENERATED certificate with no
file path is marked delivery-FAILED with a file-not-found error.  In the code
the missing-path guard returns `false` without touching the record: after the
call the delivery state is still NOT_SENT, not FAILED, and no error is
stored. -/
theorem no_file_path_not_marked_cex :
    certNoPath.status = "GENERATED" ∧ certNoPath.file_path = none ∧
    (send_certificate_email envOk dbNoPath "c-nopath" false).1 = false ∧
    (findCert (send_certificate_email envOk dbNoPath "c-nopath" false).2
        "c-nopath").map Cert.email_status = some "NOT_SENT" := by
  decide

/-- Claim C6, amended.  For a GENERATED certificate: if the file path is
missing (or empty), `send_certificate_email` returns `false` with no state
change at all; if the path is present but the file does not exist on storage,
the record is marked delivery-FAILED with a `File not found:` error and the
call returns `false`. -/
theorem file_guard_spec (env : Env) (db : DB) (cid : String) (force : Bool) (cert : Cert)
    (h1 : findCert db cid = some cert) (h2 : cert.status = "GENERATED") :
    (cert.file_path.getD "" = "" →
      send_certificate_email env db cid force = (false, db)) ∧
    (cert.file_path.getD "" ≠ "" → cert.file_path.getD "" ∉ db.files →
      (send_certificate_email env db cid force).1 = false ∧
      findCert (send_certificate_email env db cid force).2 cid =
        some (markFailedCert cert ("File not found: " ++ cert.file_path.getD ""))) := by
  have hid : cert.id = cid := findCert_id db cid cert h1
  constructor
  · intro hempty
    unfold send_certificate_email
    rw [h1]
    dsimp only
    rw [if_neg (by simp [h2]), if_pos hempty]
  · intro hne hnotin
    unfold send_certificate_email
    rw [h1]
    dsimp only
    rw [if_neg (by simp [h2]), if_neg hne, if_pos hnotin]
    exact ⟨rfl, findCert_mark_failed db cert _ cid hid h1⟩

/-- Claim C6, witness: a generated certificate whose recorded file vanished
is marked FAILED and the call returns `false`. -/
theorem file_guard_spec_witness :
    (send_certificate_email envOk dbGone "c-gone" false).1 = false ∧
    (findCert (send_certificate_email envOk dbGone "c-gone" false).2
        "c-gone").map Cert.email_status = some "FAILED" := by
  obtain ⟨hm1, hm2⟩ :=
    (file_guard_spec envOk dbGone "c-gone" false certGone rfl rfl).2
      (by decide) (by decide)
  refine ⟨hm1, ?_⟩
  rw [hm2]
  rfl

/-- Claim C7.  When `_render_certificate` succeeds, the returned path is the
deterministic `certificates/<code>.png`, that path exists on storage
afterwards, and the record (looked up by the certificate's id) has generation
state GENERATED and `file_path` equal to that path. -/
theorem render_success_path (env : Env) (db : DB) (cert : Cert) (tpl : Template)
    (p : String) (h : (render_certificate env db cert tpl).1 = .ok p) :
    p = "certificates/" ++ cert.code ++ ".png" ∧
    p ∈ (render_certificate env db cert tpl).2.files ∧
    ∀ c ∈ (render_certificate env db cert tpl).2.certs, c.id = cert.id →
      c.status = "GENERATED" ∧ c.file_path = some p := by
  unfold render_certificate at h ⊢
  cases hf : env.fetch tpl.image_url with
  | httpError => rw [hf] at h; simp at h
  | decodeError => rw [hf] at h; simp at h
  | ok w ht =>
    rw [hf] at h
    dsimp only at h ⊢
    by_cases hw : env.writeFails = true
    · simp [hw] at h
    · simp only [hw, if_false, Bool.false_eq_true] at h ⊢
      have hp : relPathFor cert = p := by simpa using h
      subst hp
      refine ⟨rfl, ?_, ?_⟩
      · exact List.mem_insert_self _ _
      · intro c hc hid
        simp only [updateCert] at hc
        obtain ⟨c0, hc0, rfl⟩ := List.mem_map.mp hc
        by_cases hb : c0.id == cert.id
        · simp [hb]
        · simp only [hb, Bool.false_eq_true, if_false, ite_false] at hid ⊢
          rw [hid] at hb
          simp at hb

/-- Claim C7, witness: the spec's scenario — code `ACM-2024-AB12`, generation
PENDING, template on a 1584×990 image — renders to
`certificates/ACM-2024-AB12.png` with the record GENERATED. -/
theorem render_success_path_witness :
    "certificates/ACM-2024-AB12.png" = "certificates/" ++ certPending.code ++ ".png" ∧
    "certificates/ACM-2024-AB12.png" ∈
      (render_certificate envOk dbPending certPending tplReact).2.files ∧
    ∀ c ∈ (render_certificate envOk dbPending certPending tplReact).2.certs,
      c.id = certPending.id →
        c.status = "GENERATED" ∧ c.file_path = some "certificates/ACM-2024-AB12.png" :=
  render_success_path envOk dbPending certPending tplReact
    "certificates/ACM-2024-AB12.png" rfl

/-- Claim C8.  For every placeholder position with percentages in `[0, 100]`
and every image of positive pixel dimensions, the computed pixel coordinates
`(x/100)·width` and `(y/100)·height` lie within the image bounds. -/
theorem pixel_position_in_bounds (x y : ℚ) (w h : Nat)
    (hx0 : 0 ≤ x) (hx1 : x ≤ 100) (hy0 : 0 ≤ y) (hy1 : y ≤ 100)
    (hw : 0 < w) (hh : 0 < h) :
    0 ≤ pixelCoord x w ∧ pixelCoord x w ≤ (w : ℚ) ∧
    0 ≤ pixelCoord y h ∧ pixelCoord y h ≤ (h : ℚ) := by
  have hw' : (0 : ℚ) ≤ (w : ℚ) := by positivity
  have hh' : (0 : ℚ) ≤ (h : ℚ) := by positivity
  have bx : x / 100 ≤ 1 := by rw [div_le_one (by norm_num)]; exact hx1
  have byy : y / 100 ≤ 1 := by rw [div_le_one (by norm_num)]; exact hy1
  refine ⟨?_, ?_, ?_, ?_⟩ <;> unfold pixelCoord
  · exact mul_nonneg (div_nonneg hx0 (by norm_num)) hw'
  · exact mul_le_of_le_one_left hw' bx
  · exact mul_nonneg (div_nonneg hy0 (by norm_num)) hh'
  · exact mul_le_of_le_one_left hh' byy

/-- Claim C8, witness: the scenario's name placeholder (50, 45) on a 1200×800
image stays within bounds. -/
theorem pixel_position_in_bounds_witness :
    0 ≤ pixelCoord 50 1200 ∧ pixelCoord 50 1200 ≤ (1200 : ℚ) ∧
    0 ≤ pixelCoord 45 800 ∧ pixelCoord 45 800 ≤ (800 : ℚ) :=
  pixel_position_in_bounds 50 45 1200 800 (by norm_num) (by norm_num)
    (by norm_num) (by norm_num) (by norm_num) (by norm_num)

/-- Claim C9.  `_mark_failed` mutates only the delivery-failure fields: the
delivery state becomes FAILED and the error message is stored truncated to at
most 2000 characters; the generation state, file path, code, recipient
fields, verification code and the previous sent timestamp are all unchanged. -/
theorem mark_failed_frame (cert : Cert) (msg : String) :
    (markFailedCert cert msg).email_status = "FAILED" ∧
    (markFailedCert cert msg).email_error = some (pyTruncate msg 2000) ∧
    (pyTruncate msg 2000).length ≤ 2000 ∧
    (markFailedCert cert msg).id = cert.id ∧
    (markFailedCert cert msg).code = cert.code ∧
    (markFailedCert cert msg).recipient_name = cert.recipient_name ∧
    (markFailedCert cert msg).email = cert.email ∧
    (markFailedCert cert msg).workshop_name = cert.workshop_name ∧
    (markFailedCert cert msg).verification_code = cert.verification_code ∧
    (markFailedCert cert msg).status = cert.status ∧
    (markFailedCert cert msg).file_path = cert.file_path ∧
    (markFailedCert cert msg).email_sent_at = cert.email_sent_at := by
  refine ⟨rfl, rfl, ?_, rfl, rfl, rfl, rfl, rfl, rfl, rfl, rfl, rfl⟩
  show (msg.data.take 2000).length ≤ 2000
  simp

/-- Claim C10.  When no workshop matches the given id, both bulk operations
return all-zero counters and leave the store untouched, and the
bulk-generation HTTP operation passes that zero result through with no
existence check. -/
theorem unknown_workshop_zeros (env : Env) (db : DB) (wid : String) (force : Bool)
    (h : ∀ w ∈ db.workshops, w.id ≠ wid) :
    generate_certificates_for_workshop env db wid =
      ({ total := 0, generated := 0, skipped := 0, failed := 0 }, db) ∧
    send_bulk_certificate_emails env db wid force =
      ({ total := 0, sent := 0, skipped := 0, failed := 0 }, db) ∧
    bulk_generate_certificates env db wid =
      generate_certificates_for_workshop env db wid := by
  have hfind : findWorkshopById db wid = none := by
    unfold findWorkshopById
    rw [List.find?_eq_none]
    intro w hw
    simpa using h w hw
  refine ⟨?_, ?_, rfl⟩
  · unfold generate_certificates_for_workshop
    rw [hfind]
  · unfold send_bulk_certificate_emails
    rw [hfind]

/-- Claim C10, witness: an id matching no workshop yields zero counters and
an unchanged store. -/
theorem unknown_workshop_zeros_witness :
    generate_certificates_for_workshop envOk dbSent "w-missing" =
      ({ total := 0, generated := 0, skipped := 0, failed := 0 }, dbSent) ∧
    send_bulk_certificate_emails envOk dbSent "w-missing" false =
      ({ total := 0, sent := 0, skipped := 0, failed := 0 }, dbSent) ∧
    bulk_generate_certificates envOk dbSent "w-missing" =
      generate_certificates_for_workshop envOk dbSent "w-missing" :=
  unknown_workshop_zeros envOk dbSent "w-missing" false (by decide)

end ACMCert
